import Mathlib

/-!
Verification development for the blog-post-generator repository.

The Python sources under `src/` are shallowly embedded: strings become
`List Char`, pure functions become Lean functions, stateful extraction code
threads an explicit file-system value, exceptions become `Except`, and
external collaborators (cv2, ffmpeg) are modelled by explicit outcome
parameters.  Python's `re` patterns are compiled by hand into a small
backtracking regex engine (`RE`, `reM`) whose candidate order mirrors
Python's greedy, leftmost-first backtracking.
-/

set_option maxRecDepth 1000000

namespace BlogGen

/-- Characters strings are modelled as lists of characters. -/
abbrev Str := List Char

/-- ASCII whitespace, as matched by Python's `str.strip` and `\s`. -/
def isPyWs (c : Char) : Bool :=
  c = ' ' ∨ c = '\t' ∨ c = '\n' ∨ c = '\r' ∨ c = '\x0b' ∨ c = '\x0c'

/-- Python `str.strip()`: drop leading and trailing whitespace. -/
def pyStrip (l : Str) : Str :=
  (l.dropWhile isPyWs).reverse.dropWhile isPyWs |>.reverse

/-- Python `str.strip(chars)`: drop characters of the set from both ends. -/
def pyStripSet (chars : Str) (l : Str) : Str :=
  (l.dropWhile (· ∈ chars)).reverse.dropWhile (· ∈ chars) |>.reverse

/-- Python `str.startswith` on our string model. -/
def pyStartsWith (pre l : Str) : Bool :=
  pre.isPrefixOf l

/-- Python's substring test `needle in hay` (true occurrence check). -/
def pyInStr (needle : Str) : Str → Bool
  | [] => needle.isPrefixOf []
  | hay@(_ :: t) => needle.isPrefixOf hay || pyInStr needle t

/-- Decimal digits. -/
def isDigitC (c : Char) : Bool :=
  '0' ≤ c ∧ c ≤ '9'

/-- Value of a digit character. -/
def digitVal (c : Char) : Nat := c.toNat - '0'.toNat

/-- Value of a string of decimal digits (most significant first). -/
def digitsVal (l : Str) : Nat :=
  l.foldl (fun acc c => acc * 10 + digitVal c) 0

/-- Errors raised by the embedded Python code. -/
inductive PyErr where
  | valueError
  | typeError
  | fileNotFound
  | runtimeError
  | cvError
  deriving DecidableEq, Repr

/-- Valid body (after optional sign) for Python `int()`: digits possibly
separated by single underscores, starting and ending with a digit. -/
def pyIntBodyValid (l : Str) : Bool :=
  !l.isEmpty && l.all (fun c => isDigitC c || c = '_') &&
    (match l.head? with | some c => isDigitC c | none => false) &&
    (match l.getLast? with | some c => isDigitC c | none => false) &&
    !pyInStr ('_' :: ['_']) l

/-- Python `int(str)`: strips whitespace, allows one optional sign, then a
digit string with single internal underscores; otherwise raises ValueError.
(Non-ASCII digits are outside the model.) -/
def pyInt (l : Str) : Except PyErr Int :=
  let s := pyStrip l
  match s with
  | '+' :: rest =>
      if pyIntBodyValid rest then .ok (digitsVal (rest.filter isDigitC)) else .error .valueError
  | '-' :: rest =>
      if pyIntBodyValid rest then .ok (-(digitsVal (rest.filter isDigitC) : Int)) else .error .valueError
  | rest =>
      if pyIntBodyValid rest then .ok (digitsVal (rest.filter isDigitC)) else .error .valueError

/-- Split a list at every occurrence of a separator character (Python
`str.split(c)` for a one-character separator). -/
def splitOnChar (c : Char) : Str → List Str
  | [] => [[]]
  | x :: xs =>
      let r := splitOnChar c xs
      if x = c then [] :: r
      else
        match r with
        | h :: t => (x :: h) :: t
        | [] => [[x]]

/-- Embedding of `BlogDocumentReader.parse_time` (src/src/blog_processor/docx_reader.py).
Splits the stripped string on `:`; two parts are minutes:seconds, three are
hours:minutes:seconds, anything else falls through to `int(time_str)`.
A ValueError from `int` is logged and re-raised. -/
def parseTime (timeStr : Str) : Except PyErr Int := do
  let parts := splitOnChar ':' (pyStrip timeStr)
  match parts with
  | [m, s] => do
      let mv ← pyInt m
      let sv ← pyInt s
      pure (mv * 60 + sv)
  | [h, m, s] => do
      let hv ← pyInt h
      let mv ← pyInt m
      let sv ← pyInt s
      pure (hv * 3600 + mv * 60 + sv)
  | _ => pyInt timeStr

/-- First match of the regex `(\d+)\s*minute` in a string: a maximal digit
run immediately followed by optional whitespace and the literal `minute`.
Returns the digit group of the leftmost such occurrence. -/
def findNumberBefore (word : Str) : Str → Option Str
  | [] => none
  | l@(_ :: tl) =>
      let run := l.takeWhile isDigitC
      let rest := l.drop run.length
      let after := rest.dropWhile isPyWs
      if run ≠ [] ∧ pyStartsWith word after then some run
      else findNumberBefore word tl

/-- Embedding of `parse_duration` (src/src/highlight_reel_extractor.py).
Strips parentheses; a colon form is minutes:seconds; otherwise sums the
`<n> minute` and `<n> second` free-text parts, defaulting each to zero. -/
def parseDuration (durationStr : Str) : Except PyErr Int := do
  let s := pyStripSet ('(' :: [')']) (pyStrip durationStr)
  if (':' ∈ s) then do
    let parts := splitOnChar ':' s
    let minutes ← pyInt (parts.headD [])
    let seconds ← (match parts with
      | _ :: p1 :: _ => pyInt p1
      | _ => pure 0)
    pure (minutes * 60 + seconds)
  else
    let minutes : Int := (match findNumberBefore ("minute".data) s with
      | some run => (digitsVal run : Int)
      | none => 0)
    let seconds : Int := (match findNumberBefore ("second".data) s with
      | some run => (digitsVal run : Int)
      | none => 0)
    pure (minutes * 60 + seconds)

/-- Decimal rendering of a natural number. -/
def natStr (n : Nat) : Str := (Nat.repr n).data

/-- Decimal rendering of an integer. -/
def intStr (i : Int) : Str := (Int.repr i).data

/-- Two-digit zero padding, as in Python's `%02d` inside `timedelta.__str__`. -/
def pad2 (n : Nat) : Str :=
  if n < 10 then '0' :: natStr n else natStr n

/-- Python `f"{n:03d}"` for an integer. -/
def fmtInt03 (i : Int) : Str :=
  if i < 0 then
    '-' :: (if (-i) < 10 then '0' :: '0' :: natStr (-i).toNat
            else if (-i) < 100 then '0' :: natStr (-i).toNat else natStr (-i).toNat)
  else
    if i < 10 then '0' :: '0' :: natStr i.toNat
    else if i < 100 then '0' :: natStr i.toNat else natStr i.toNat

/-- Embedding of `str(datetime.timedelta(seconds = i))`: `H:MM:SS`, with a
`D day(s), ` prefix when the floor-division day count is nonzero. -/
def fmtTD (i : Int) : Str :=
  let days := i.ediv 86400
  let rem := (i.emod 86400).toNat
  let base := natStr (rem / 3600) ++ ':' :: pad2 (rem % 3600 / 60) ++ ':' :: pad2 (rem % 60)
  if days = 0 then base
  else intStr days ++ (" day".data) ++ (if days = 1 ∨ days = -1 then [] else ['s']) ++ (", ".data) ++ base

/-- Replace one character by another everywhere (Python `str.replace` with
single-character arguments). -/
def replaceChar (a b : Char) (l : Str) : Str :=
  l.map (fun c => if c = a then b else c)

/-- Python `str.replace(old, new)`: replace every non-overlapping occurrence,
scanning left to right.  An empty `old` inserts `new` at every boundary. -/
def pyReplaceAux (old new : Str) : Nat → Str → Str
  | 0, l => l
  | fuel + 1, l =>
      if old.isPrefixOf l ∧ old ≠ [] then
        new ++ pyReplaceAux old new fuel (l.drop old.length)
      else
        match l with
        | [] => if old = [] then new else []
        | c :: t =>
            if old = [] then new ++ c :: pyReplaceAux old new fuel t
            else c :: pyReplaceAux old new fuel t

/-- Python `str.replace(old, new)` on the string model. -/
def pyReplace (l old new : Str) : Str :=
  pyReplaceAux old new (l.length + 1) l

/-- Python `str.split(sep)` for a non-empty separator string. -/
def pySplitOnAux (sep : Str) : Nat → Str → List Str
  | 0, l => [l]
  | fuel + 1, l =>
      if sep.isPrefixOf l ∧ sep ≠ [] then
        match pySplitOnAux sep fuel (l.drop sep.length) with
        | r => [] :: r
      else
        match l with
        | [] => [[]]
        | c :: t =>
            match pySplitOnAux sep fuel t with
            | h :: r => (c :: h) :: r
            | [] => [[c]]

/-- Python `str.split(sep)` on the string model. -/
def pySplitOn (sep l : Str) : List Str :=
  pySplitOnAux sep (l.length + 1) l

/-- Join a list of strings with a separator (Python `sep.join`). -/
def joinSep (sep : Str) : List Str → Str
  | [] => []
  | [x] => x
  | x :: xs => x ++ sep ++ joinSep sep xs

/-- Code-point order on strings, as used by Python's `list.sort()` for `str`. -/
def lexLe : Str → Str → Bool
  | [], _ => true
  | _ :: _, [] => false
  | a :: as', b :: bs' =>
      if a.toNat < b.toNat then true
      else if b.toNat < a.toNat then false
      else lexLe as' bs'

/-- Stable insertion into a lexicographically sorted list. -/
def insertLex (a : Str) : List Str → List Str
  | [] => [a]
  | b :: bs => if lexLe b a then b :: insertLex a bs else a :: b :: bs

/-- Python `list.sort()` on a list of strings (stable, ascending). -/
def sortLex (l : List Str) : List Str :=
  l.foldl (fun acc a => insertLex a acc) []

/-- Model of `os.path.join` for a POSIX path with two components. -/
def pyJoin (a b : Str) : Str :=
  if b.head? = some '/' then b
  else if a = [] then b
  else if a.getLast? = some '/' then a ++ b
  else a ++ '/' :: b

/-- Model of `os.path.basename`: the part after the last slash. -/
def pyBasename (p : Str) : Str :=
  ((p.reverse.takeWhile (· ≠ '/')).reverse)

/-- Model of `os.path.dirname`: the prefix up to the last slash, with
trailing slashes stripped unless the prefix is all slashes. -/
def pyDirname (p : Str) : Str :=
  let head := (p.reverse.dropWhile (· ≠ '/')).reverse
  if head = [] then []
  else if head.all (· = '/') then head
  else head.reverse.dropWhile (· = '/') |>.reverse

/-- Length of the common prefix of two component lists. -/
def commonPrefixLen : List Str → List Str → Nat
  | a :: as', b :: bs' => if a = b then commonPrefixLen as' bs' + 1 else 0
  | _, _ => 0

/-- Model of `os.path.relpath` for relative POSIX paths under one working
directory (the shared absolute prefix cancels). -/
def pyRelpath (path start : Str) : Str :=
  let pl := (splitOnChar '/' path).filter (· ≠ [])
  let sl := (splitOnChar '/' start).filter (· ≠ [])
  let i := commonPrefixLen pl sl
  let parts := (List.replicate (sl.length - i) ("..".data)) ++ pl.drop i
  if parts = [] then ['.'] else joinSep ['/'] parts

/-- Root part of `os.path.splitext` for a slash-free name: cut at the last
dot unless every character before it is a dot. -/
def splitextRoot (p : Str) : Str :=
  let idxs := (List.range p.length).filter (fun i => p.getD i ' ' = '.')
  match idxs.getLast? with
  | none => p
  | some d =>
      if (List.range d).all (fun i => p.getD i ' ' = '.') then p
      else p.take d

/-!
A small backtracking regex engine.  `reM` returns every way a pattern can
match at the current position, in Python's backtracking priority order
(greedy repetitions propose longer consumptions first, optional pieces
propose presence before absence); the head of the list is the match Python
picks.  `many p true` is `[class]+`, `many p false` is `[class]*`, `optc`
is `[class]?`, `opts` is `(?:...)?`, `bol`/`eol` are the MULTILINE `^`/`$`.
-/

/-- Capture groups of a match: group index paired with captured text. -/
abbrev Caps := List (Nat × Str)

/-- Regex abstract syntax (the fragment used by the repository's
patterns).  Sequencing is binary (`cat`) so the matcher is structurally
recursive; `seqList` builds a right-nested chain from a list. -/
inductive RE where
  | eps : RE
  | lit : Str → RE
  | many : (Char → Bool) → Bool → RE
  | optc : (Char → Bool) → RE
  | grp : Nat → RE → RE
  | cat : RE → RE → RE
  | opts : RE → RE
  | bol : RE
  | eol : RE

/-- Right-nested sequence of patterns. -/
def seqList (rs : List RE) : RE := rs.foldr .cat .eps

/-- Last character of a consumed chunk, else the previous character. -/
def lastOr (prev : Option Char) (consumed : Str) : Option Char :=
  match consumed.getLast? with
  | some c => some c
  | none => prev

/-- All matches of a pattern at the start of `inp`, in backtracking
priority order, as (consumed, rest, captures) triples.  `prev` is the
character immediately before `inp` (for `^` in MULTILINE mode). -/
def reM : RE → Option Char → Str → List (Str × Str × Caps)
  | .eps, _, inp => [([], inp, [])]
  | .lit s, _, inp =>
      if s.isPrefixOf inp then [(s, inp.drop s.length, [])] else []
  | .many p needOne, _, inp =>
      let run := inp.takeWhile p
      ((List.range (run.length + 1)).reverse).filterMap (fun k =>
        if needOne ∧ k = 0 then none
        else some (inp.take k, inp.drop k, []))
  | .optc p, _, inp =>
      match inp with
      | c :: t => if p c then [([c], t, []), ([], inp, [])] else [([], inp, [])]
      | [] => [([], [], [])]
  | .grp n r, prev, inp =>
      (reM r prev inp).map (fun x => (x.1, x.2.1, x.2.2 ++ [(n, x.1)]))
  | .cat r1 r2, prev, inp =>
      (reM r1 prev inp).flatMap (fun x =>
        (reM r2 (lastOr prev x.1) x.2.1).map (fun y =>
          (x.1 ++ y.1, y.2.1, x.2.2 ++ y.2.2)))
  | .opts r, prev, inp => reM r prev inp ++ [([], inp, [])]
  | .bol, prev, inp =>
      if prev = none ∨ prev = some '\n' then [([], inp, [])] else []
  | .eol, _, inp =>
      if inp = [] ∨ inp.head? = some '\n' then [([], inp, [])] else []

/-- Value of a capture group (the last binding, as in Python). -/
def capGet (k : Caps) (n : Nat) : Option Str :=
  (k.reverse.find? (fun x => x.1 = n)).map (·.2)

/-- Scan for successive non-overlapping matches (Python `re.finditer`):
try each position left to right, resume after each match, advance one
character past an empty match. -/
def reFindAux (r : RE) : Nat → Option Char → Str → List (Str × Caps)
  | 0, _, _ => []
  | fuel + 1, prev, inp =>
      match (reM r prev inp).head? with
      | some (c, rest, k) =>
          if c = [] then
            (c, k) :: (match inp with
              | [] => []
              | ch :: t => reFindAux r fuel (some ch) t)
          else (c, k) :: reFindAux r fuel (lastOr prev c) rest
      | none =>
          match inp with
          | [] => []
          | ch :: t => reFindAux r fuel (some ch) t

/-- All matches of a pattern in a string, as (whole match, captures). -/
def reFind (r : RE) (inp : Str) : List (Str × Caps) :=
  reFindAux r (inp.length + 1) none inp

/-- First match of a pattern in a string (Python `re.search`). -/
def reSearch (r : RE) (inp : Str) : Option (Str × Caps) :=
  (reFind r inp).head?

/-- A replacement template piece: literal text or a group reference. -/
inductive TplPiece where
  | litT : Str → TplPiece
  | grpT : Nat → TplPiece

/-- Render a template against the captures of one match. -/
def renderTpl (tpl : List TplPiece) (k : Caps) : Str :=
  tpl.foldr (fun piece acc =>
    (match piece with
     | .litT s => s
     | .grpT n => (capGet k n).getD []) ++ acc) []

/-- Python `re.sub`: replace every non-overlapping match of the pattern by
the rendered template, scanning left to right. -/
def reSubAux (r : RE) (tpl : List TplPiece) : Nat → Option Char → Str → Str
  | 0, _, inp => inp
  | fuel + 1, prev, inp =>
      match (reM r prev inp).head? with
      | some (c, rest, k) =>
          let rendered := renderTpl tpl k
          if c = [] then
            match inp with
            | [] => rendered
            | ch :: t => rendered ++ ch :: reSubAux r tpl fuel (some ch) t
          else rendered ++ reSubAux r tpl fuel (lastOr prev c) rest
      | none =>
          match inp with
          | [] => []
          | ch :: t => ch :: reSubAux r tpl fuel (some ch) t

/-- Python `re.sub` over a whole string. -/
def reSub (r : RE) (tpl : List TplPiece) (inp : Str) : Str :=
  reSubAux r tpl (inp.length + 1) none inp

/-!
Embedding of src/src/blog_processor/docx_reader.py: the `MediaMarker`
dataclass and `BlogDocumentReader`.
-/

/-- Marker kind (`type` field of the Python dataclass, 'CLIP'/'SCREENSHOT'). -/
inductive MType where
  | CLIP
  | SCREENSHOT
  deriving DecidableEq, Repr

/-- A dynamically typed timestamp value: the dataclass declares `int`, but
defensive `isinstance` checks downstream also handle stray strings. -/
inductive PyVal where
  | int : Int → PyVal
  | str : Str → PyVal
  deriving DecidableEq, Repr

/-- Embedding of the `MediaMarker` dataclass. -/
structure MediaMarker where
  type : MType
  timestamp : PyVal
  duration : Option PyVal
  align : Str
  caption : Str
  original_text : Str
  deriving DecidableEq, Repr

/-- Whitespace class `\s`. -/
def wsP : RE := .many isPyWs true

/-- The pattern `r'\[CLIP\s+timestamp="([^"]+)"\s+duration="([^"]+)"\s+align\s*[="]*([^"\]\s]+)["]?\]([^\[]*)'`
(`self.clip_pattern` in `BlogDocumentReader.__init__`). -/
def clipPatternAlign : RE :=
  seqList [.lit ("[CLIP".data), wsP,
         .lit ("timestamp=\"".data), .grp 1 (.many (· ≠ '"') true), .lit ['"'], wsP,
         .lit ("duration=\"".data), .grp 2 (.many (· ≠ '"') true), .lit ['"'], wsP,
         .lit ("align".data), .many isPyWs false,
         .many (fun c => c = '=' ∨ c = '"') false,
         .grp 3 (.many (fun c => ¬(c = '"' ∨ c = ']' ∨ isPyWs c)) true),
         .optc (· = '"'), .lit [']'],
         .grp 4 (.many (· ≠ '[') false)]

/-- The pattern `r'\[CLIP\s+timestamp="([^"]+)"\s+duration="([^"]+)"\]([^\[]*)'`
(`self.clip_pattern_no_align`). -/
def clipPatternNoAlign : RE :=
  seqList [.lit ("[CLIP".data), wsP,
         .lit ("timestamp=\"".data), .grp 1 (.many (· ≠ '"') true), .lit ['"'], wsP,
         .lit ("duration=\"".data), .grp 2 (.many (· ≠ '"') true), .lit ("\"]".data),
         .grp 3 (.many (· ≠ '[') false)]

/-- The pattern `r'\[SCREENSHOT\s+timestamp="([^"]+)"\s+align\s*[="]*([^"\]\s]+)["]?\]([^\[]*)'`
(`self.screenshot_pattern`). -/
def ssPatternAlign : RE :=
  seqList [.lit ("[SCREENSHOT".data), wsP,
         .lit ("timestamp=\"".data), .grp 1 (.many (· ≠ '"') true), .lit ['"'], wsP,
         .lit ("align".data), .many isPyWs false,
         .many (fun c => c = '=' ∨ c = '"') false,
         .grp 2 (.many (fun c => ¬(c = '"' ∨ c = ']' ∨ isPyWs c)) true),
         .optc (· = '"'), .lit [']'],
         .grp 3 (.many (· ≠ '[') false)]

/-- The pattern `r'\[SCREENSHOT\s+timestamp="([^"]+)"\]([^\[]*)'`
(`self.screenshot_pattern_no_align`). -/
def ssPatternNoAlign : RE :=
  seqList [.lit ("[SCREENSHOT".data), wsP,
         .lit ("timestamp=\"".data), .grp 1 (.many (· ≠ '"') true), .lit ("\"]".data),
         .grp 2 (.many (· ≠ '[') false)]

/-- One match of `clip_pattern` into a marker: `parse_time` failures make
the marker be skipped (the Python code logs and continues). -/
def mkClipAlign (whole : Str) (k : Caps) : Option MediaMarker :=
  match parseTime ((capGet k 1).getD []), parseTime ((capGet k 2).getD []) with
  | .ok t, .ok d =>
      some { type := .CLIP, timestamp := .int t, duration := some (.int d),
             align := pyStrip (pyStripSet ['"'] ((capGet k 3).getD [])),
             caption := pyStrip ((capGet k 4).getD []),
             original_text := whole }
  | _, _ => none

/-- One match of `clip_pattern_no_align` into a marker (align defaults to
center). -/
def mkClipNoAlign (whole : Str) (k : Caps) : Option MediaMarker :=
  match parseTime ((capGet k 1).getD []), parseTime ((capGet k 2).getD []) with
  | .ok t, .ok d =>
      some { type := .CLIP, timestamp := .int t, duration := some (.int d),
             align := "center".data,
             caption := pyStrip ((capGet k 3).getD []),
             original_text := whole }
  | _, _ => none

/-- One match of `screenshot_pattern` into a marker. -/
def mkSsAlign (whole : Str) (k : Caps) : Option MediaMarker :=
  match parseTime ((capGet k 1).getD []) with
  | .ok t =>
      some { type := .SCREENSHOT, timestamp := .int t, duration := none,
             align := pyStrip (pyStripSet ['"'] ((capGet k 2).getD [])),
             caption := pyStrip ((capGet k 3).getD []),
             original_text := whole }
  | _ => none

/-- One match of `screenshot_pattern_no_align` into a marker. -/
def mkSsNoAlign (whole : Str) (k : Caps) : Option MediaMarker :=
  match parseTime ((capGet k 1).getD []) with
  | .ok t =>
      some { type := .SCREENSHOT, timestamp := .int t, duration := none,
             align := "center".data,
             caption := pyStrip ((capGet k 2).getD []),
             original_text := whole }
  | _ => none

/-- Embedding of `BlogDocumentReader._process_clip_markers`: all matches of
the align pattern, then all matches of the no-align pattern. -/
def processClipMarkers (text : Str) : List MediaMarker :=
  ((reFind clipPatternAlign text).filterMap (fun m => mkClipAlign m.1 m.2)) ++
  ((reFind clipPatternNoAlign text).filterMap (fun m => mkClipNoAlign m.1 m.2))

/-- Embedding of `BlogDocumentReader._process_screenshot_markers`. -/
def processScreenshotMarkers (text : Str) : List MediaMarker :=
  ((reFind ssPatternAlign text).filterMap (fun m => mkSsAlign m.1 m.2)) ++
  ((reFind ssPatternNoAlign text).filterMap (fun m => mkSsNoAlign m.1 m.2))

/-- Embedding of `BlogDocumentReader.extract_markers`, over the ordered
paragraph texts the docx collaborator produces.  Each paragraph is
stripped; empty paragraphs contribute an empty line and no markers; the
returned full text is the newline join, with markers left in place. -/
def extractMarkers (paras : List Str) : List MediaMarker × Str :=
  (paras.flatMap (fun p =>
     let text := pyStrip p
     if text = [] then []
     else processClipMarkers text ++ processScreenshotMarkers text),
   joinSep ['\n'] (paras.map pyStrip))

/-- Embedding of `BlogDocumentReader.validate_markers`.  Warning strings
are kept abstract as tags: the code emits one warning per clip with
duration below one second and one per string-typed timestamp that
`parse_time` rejects.  A clip whose duration is `None` or a string would
make the Python comparison `duration < 1` raise, hence the `Except`. -/
inductive MarkerWarning where
  | clipDurationBelowOne : Nat → MarkerWarning
  | invalidTimestampFormat : Nat → MarkerWarning
  deriving DecidableEq, Repr

/-- Embedding of `BlogDocumentReader.validate_markers` (1-based indices). -/
def validateMarkers (markers : List MediaMarker) : Except PyErr (List MarkerWarning) := do
  let mut2 ← markers.enum.foldlM (fun (acc : List MarkerWarning) x => do
      let (i0, marker) := x
      let i := i0 + 1
      let acc ← (if marker.type = .CLIP then
          match marker.duration with
          | some (.int d) => pure (if d < 1 then acc ++ [.clipDurationBelowOne i] else acc)
          | some (.str _) => Except.error .typeError
          | none => Except.error .typeError
        else pure acc)
      match marker.timestamp with
      | .str s =>
          match parseTime s with
          | .error _ => pure (acc ++ [.invalidTimestampFormat i])
          | .ok _ => pure acc
      | .int _ => pure acc) []
  pure mut2

/-!
Embedding of the extraction layer: src/src/utils.py, src/src/screenshot_extractor.py,
src/src/videoclipper.py, src/src/blog_processor/media_extractor.py and the
`_extract_media` wrapper in src/src/blog_processor/blog_processor.py.

Disk state is a list of written file paths; the cv2 and ffmpeg
collaborators are modelled by outcome parameters (per-screenshot result,
per-clip failure flag), matching the spec's view of them as external
utilities that "may raise ... a generic extraction failure".
-/

/-- The set of files on disk, as written by this run. -/
structure FS where
  files : List Str
  deriving DecidableEq, Repr

/-- Write a file (an existing path is overwritten in place). -/
def FS.write (fs : FS) (p : Str) : FS :=
  if p ∈ fs.files then fs else { files := fs.files ++ [p] }

/-- Remove a file. -/
def FS.remove (fs : FS) (p : Str) : FS :=
  { files := fs.files.filter (· ≠ p) }

/-- Embedding of `validate_timestamps` (src/src/utils.py) on integer
timestamps. -/
def validateTimestamps (timestamps : List Int) (allowDuplicates : Bool) : Except PyErr Unit :=
  if timestamps = [] then .error .valueError
  else if ¬ timestamps.all (fun t => t ≥ 0) then .error .valueError
  else if ¬ allowDuplicates ∧ timestamps.length ≠ timestamps.dedup.length then .error .valueError
  else .ok ()

/-- Outcome of one cv2 frame grab inside the screenshot loop: the frame is
written, the read fails (logged, skipped), or cv2 raises. -/
inductive ShotOutcome where
  | written
  | readFail
  | raised
  deriving DecidableEq, Repr

/-- Screenshot filename from src/src/screenshot_extractor.py line 59:
`f"{video_filename}_screenshot_{i + 1:03d}_at_{time_str.replace(':', '-')}.jpg"`. -/
def screenshotFilename (videoFilename : Str) (i : Nat) (t : Int) : Str :=
  videoFilename ++ ("_screenshot_".data) ++ fmtInt03 (i + 1) ++ ("_at_".data) ++
    replaceChar ':' '-' (fmtTD t) ++ (".jpg".data)

/-- The path `extract_screenshots_at_times` actually writes: inside the
video-named subfolder `os.path.join(output_dir, video_filename)`. -/
def screenshotWrittenPath (outputDir videoPath : Str) (i : Nat) (t : Int) : Str :=
  let stem := splitextRoot (pyBasename videoPath)
  pyJoin (pyJoin outputDir stem) (screenshotFilename stem i t)

/-- Embedding of `extract_screenshots_at_times`
(src/src/screenshot_extractor.py).  `videoDur` is the measured video
duration; timestamps beyond it are skipped with a warning; each remaining
timestamp is grabbed with outcome `out i`. -/
def extractScreenshotsAtTimes (videoExists : Bool) (videoDur : Int)
    (out : Nat → ShotOutcome) (videoPath outputDir : Str)
    (timestamps : List Int) (fs : FS) : FS × Except PyErr Unit :=
  if ¬ videoExists then (fs, .error .fileNotFound)
  else
    match validateTimestamps timestamps true with
    | .error e => (fs, .error e)
    | .ok _ =>
        let rec loop : List Int → Nat → FS → FS × Except PyErr Unit
          | [], _, fs => (fs, .ok ())
          | t :: ts, i, fs =>
              if t > videoDur then loop ts (i + 1) fs
              else
                match out i with
                | .raised => (fs, .error .cvError)
                | .readFail => loop ts (i + 1) fs
                | .written => loop ts (i + 1) (fs.write (screenshotWrittenPath outputDir videoPath i t))
        loop timestamps 0 fs

/-- Clip filename from src/src/videoclipper.py line 36. -/
def clipFilename (videoFilename : Str) (startTime duration : Int) : Str :=
  videoFilename ++ ("_clip_from_".data) ++ replaceChar ':' '-' (fmtTD startTime) ++
    ("_duration_".data) ++ replaceChar ':' '-' (fmtTD duration) ++ (".mp4".data)

/-- Embedding of `extract_video_clip` (src/src/videoclipper.py).  Checks
the video exists, validates the start time, rejects a non-positive
duration with ValueError, then invokes ffmpeg (modelled by the
`ffmpegRaises` outcome flag; on success the output file is written and its
path returned). -/
def extractVideoClip (videoExists ffmpegRaises : Bool) (videoPath outputDir : Str)
    (startTime duration : Int) (fs : FS) : FS × Except PyErr Str :=
  if ¬ videoExists then (fs, .error .fileNotFound)
  else
    match validateTimestamps [startTime] true with
    | .error e => (fs, .error e)
    | .ok _ =>
        if duration ≤ 0 then (fs, .error .valueError)
        else
          let stem := splitextRoot (pyBasename videoPath)
          let outputPath := pyJoin outputDir (clipFilename stem startTime duration)
          if ffmpegRaises then (fs, .error .runtimeError)
          else (fs.write outputPath, .ok outputPath)

/-- The per-kind lists of tracked files (`self.extracted_files`). -/
structure ExtractorState where
  clips : List Str
  screenshots : List Str
  deriving DecidableEq, Repr

/-- The fresh tracker built in `MediaExtractor.__init__`. -/
def ExtractorState.init : ExtractorState := { clips := [], screenshots := [] }

/-- The path `MediaExtractor._extract_screenshots` tracks for marker `i`:
directly under `self.output_dir`, not under the video-named subfolder. -/
def screenshotTrackedPath (outputDir videoPath : Str) (i : Nat) (t : Int) : Str :=
  let videoName := splitextRoot (pyBasename videoPath)
  pyJoin outputDir (screenshotFilename videoName i t)

/-- Embedding of `MediaExtractor._extract_screenshots`: collect the
integer timestamps, return early if none, run the batch extraction, and
only then record the expected paths in the tracker.  A raise from the
batch call propagates before anything is tracked. -/
def mediaExtractScreenshots (videoExists : Bool) (videoDur : Int)
    (out : Nat → ShotOutcome) (videoPath outputDir : Str)
    (markers : List MediaMarker) (fs : FS) (st : ExtractorState) :
    FS × ExtractorState × Except PyErr Unit :=
  let timestamps := markers.filterMap (fun m =>
    match m.timestamp with
    | .int n => some n
    | .str _ => none)
  if timestamps = [] then (fs, st, .ok ())
  else
    match extractScreenshotsAtTimes videoExists videoDur out videoPath outputDir timestamps fs with
    | (fs', .error e) => (fs', st, .error e)
    | (fs', .ok _) =>
        let tracked := markers.enum.filterMap (fun x =>
          match x.2.timestamp with
          | .int n => some (screenshotTrackedPath outputDir videoPath x.1 n)
          | .str _ => none)
        (fs', { st with screenshots := st.screenshots ++ tracked }, .ok ())

/-- Embedding of `MediaExtractor._extract_clips`: clips are extracted one
by one; markers with non-numeric timestamp or duration are skipped; a
raise from `extract_video_clip` propagates, keeping the files and tracker
entries accumulated so far. -/
def mediaExtractClips (videoExists : Bool) (ffmpegRaises : Nat → Bool)
    (videoPath outputDir : Str) : List MediaMarker → Nat → FS → ExtractorState →
    FS × ExtractorState × Except PyErr Unit
  | [], _, fs, st => (fs, st, .ok ())
  | m :: ms, i, fs, st =>
      match m.timestamp with
      | .str _ => mediaExtractClips videoExists ffmpegRaises videoPath outputDir ms (i + 1) fs st
      | .int t =>
          match m.duration with
          | none => mediaExtractClips videoExists ffmpegRaises videoPath outputDir ms (i + 1) fs st
          | some (.str _) => mediaExtractClips videoExists ffmpegRaises videoPath outputDir ms (i + 1) fs st
          | some (.int d) =>
              match extractVideoClip videoExists (ffmpegRaises i) videoPath outputDir t d fs with
              | (fs', .error e) => (fs', st, .error e)
              | (fs', .ok outputPath) =>
                  mediaExtractClips videoExists ffmpegRaises videoPath outputDir ms (i + 1) fs'
                    { st with clips := st.clips ++ [outputPath] }

/-- Embedding of `MediaExtractor.extract_all_media`: verifies the video
exists, returns success on an empty marker list, extracts screenshots in
one batch and clips one by one, converting any raise into a `False`
result (the partially written files and tracker entries survive). -/
def extractAllMedia (videoExists : Bool) (videoDur : Int)
    (out : Nat → ShotOutcome) (ffmpegRaises : Nat → Bool)
    (videoPath outputDir : Str) (markers : List MediaMarker) (fs : FS) :
    FS × ExtractorState × Bool :=
  let st := ExtractorState.init
  if ¬ videoExists then (fs, st, false)
  else if markers = [] then (fs, st, true)
  else
    let screenshotMarkers := markers.filter (fun m => m.type = .SCREENSHOT)
    let clipMarkers := markers.filter (fun m => m.type = .CLIP)
    let afterShots :=
      if screenshotMarkers ≠ [] then
        mediaExtractScreenshots videoExists videoDur out videoPath outputDir screenshotMarkers fs st
      else (fs, st, .ok ())
    match afterShots with
    | (fs', st', .error _) => (fs', st', false)
    | (fs', st', .ok _) =>
        let afterClips :=
          if clipMarkers ≠ [] then
            mediaExtractClips videoExists ffmpegRaises videoPath outputDir clipMarkers 0 fs' st'
          else (fs', st', .ok ())
        match afterClips with
        | (fs'', st'', .error _) => (fs'', st'', false)
        | (fs'', st'', .ok _) => (fs'', st'', true)

/-- Embedding of `MediaExtractor.cleanup_failed_extractions`: remove every
tracked path that exists on disk ('clips' first, then 'screenshots'). -/
def cleanupFailedExtractions (st : ExtractorState) (fs : FS) : FS :=
  (st.clips ++ st.screenshots).foldl (fun fs p => fs.remove p) fs

/-- Embedding of `BlogProcessor._extract_media`
(src/src/blog_processor/blog_processor.py): empty marker lists succeed
without work; otherwise run `extract_all_media` and, on failure, call
`cleanup_failed_extractions` before reporting `False`. -/
def blogExtractMedia (videoExists : Bool) (videoDur : Int)
    (out : Nat → ShotOutcome) (ffmpegRaises : Nat → Bool)
    (videoPath mediaDir : Str) (markers : List MediaMarker) (fs : FS) :
    FS × Bool :=
  if markers = [] then (fs, true)
  else
    match extractAllMedia videoExists videoDur out ffmpegRaises videoPath mediaDir markers fs with
    | (fs', st, false) => (cleanupFailedExtractions st fs', false)
    | (fs', _, true) => (fs', true)

/-!
Embedding of src/src/blog_processor/html_generator.py.  The generator's
state is its media folder and the media-file index produced by the
constructor's directory scan (`self.all_media_files`); `generate_html` is
a function of that state, the blog text and the marker list.
-/

/-- The `HTMLGenerator` state used by `generate_html`. -/
structure HTMLGen where
  mediaFolder : Str
  allMediaFiles : List (MType × Str)
  deriving DecidableEq, Repr

/-- Embedding of `HTMLGenerator._get_width_class`. -/
def getWidthClass (align : Str) : Str :=
  if align = "left".data ∨ align = "right".data then "width-50".data
  else if align = "center".data then "width-70".data
  else "width-70".data

/-- The `align_class` computed in the element builders. -/
def alignClassOf (align : Str) : Str :=
  if align = "left".data ∨ align = "right".data then ("align-".data) ++ align
  else "align-center".data

/-- Embedding of `HTMLGenerator._create_video_element` (the f-string
template, byte for byte). -/
def createVideoElement (m : MediaMarker) (videoPath : Str) : Str :=
  ("\n        <figure class=\"".data) ++ alignClassOf m.align ++ [' '] ++ getWidthClass m.align ++
  ("\">\n            <video controls>\n                <source src=\"".data) ++ videoPath ++
  ("\" type=\"video/mp4\">\n                Your browser does not support the video tag.\n            </video>\n            <figcaption>".data) ++
  m.caption ++
  ("</figcaption>\n        </figure>\n        ".data)

/-- Embedding of `HTMLGenerator._create_image_element`. -/
def createImageElement (m : MediaMarker) (imagePath : Str) : Str :=
  ("\n        <figure class=\"".data) ++ alignClassOf m.align ++ [' '] ++ getWidthClass m.align ++
  ("\">\n            <img src=\"".data) ++ imagePath ++ ("\" alt=\"".data) ++ m.caption ++
  ("\">\n            <figcaption>".data) ++ m.caption ++
  ("</figcaption>\n        </figure>\n        ".data)

/-- Embedding of `HTMLGenerator._find_media_file_by_timestamp`: normalize
the timestamp (a stray string form is re-parsed with bare `int()` calls
whose ValueError propagates), then return the first index entry of the
right kind whose path contains the `H-MM-SS` rendering; else the first
screenshot whose path contains `screenshot_<secs:03d>`; else `None`. -/
def findMediaFileByTimestamp (g : HTMLGen) (tsv : PyVal) (mt : MType) :
    Except PyErr (Option Str) := do
  let timestampSecs : Int ← (match tsv with
    | .str s =>
        match splitOnChar ':' s with
        | [a, b] => do
            let av ← pyInt a
            let bv ← pyInt b
            pure (av * 60 + bv)
        | [a, b, c] => do
            let av ← pyInt a
            let bv ← pyInt b
            let cv ← pyInt c
            pure (av * 3600 + bv * 60 + cv)
        | _ => pyInt s
    | .int n => pure n)
  let formattedTime := replaceChar ':' '-' (fmtTD timestampSecs)
  let htmlDir := pyDirname g.mediaFolder
  match g.allMediaFiles.find? (fun f => f.1 = mt ∧ pyInStr formattedTime f.2) with
  | some f => pure (some (pyRelpath f.2 htmlDir))
  | none =>
      match g.allMediaFiles.find? (fun f => f.1 = mt ∧ mt = .SCREENSHOT ∧
          pyInStr (("screenshot_".data) ++ fmtInt03 timestampSecs) f.2) with
      | some f => pure (some (pyRelpath f.2 htmlDir))
      | none => pure none

/-- The fallback pattern of `generate_html` line 323:
`r'\[SCREENSHOT\s+timestamp="([^"]+)"(?:\s+align\s*[="]*([^"\]\s]+)["]?)?\]'`. -/
def ssFallbackPat : RE :=
  seqList [.lit ("[SCREENSHOT".data), wsP,
         .lit ("timestamp=\"".data), .grp 1 (.many (· ≠ '"') true), .lit ['"'],
         .opts (seqList [wsP, .lit ("align".data), .many isPyWs false,
                       .many (fun c => c = '=' ∨ c = '"') false,
                       .grp 2 (.many (fun c => ¬(c = '"' ∨ c = ']' ∨ isPyWs c)) true),
                       .optc (· = '"')]),
         .lit [']']]

/-- The leftover-marker pattern of `generate_html` line 348:
`r'\[SCREENSHOT[^\]]+\]'`. -/
def ssLeftoverPat : RE :=
  seqList [.lit ("[SCREENSHOT".data), .many (· ≠ ']') true, .lit [']']]

/-- The search pattern `r'timestamp="([^"]+)"'` used on leftover markers. -/
def tsSearchPat : RE :=
  seqList [.lit ("timestamp=\"".data), .grp 1 (.many (· ≠ '"') true), .lit ['"']]

/-- The search pattern `r'align\s*[="]*([^"\]\s]+)["]?'` used on leftover
markers. -/
def alignSearchPat : RE :=
  seqList [.lit ("align".data), .many isPyWs false,
         .many (fun c => c = '=' ∨ c = '"') false,
         .grp 1 (.many (fun c => ¬(c = '"' ∨ c = ']' ∨ isPyWs c)) true),
         .optc (· = '"')]

/-- The seconds value the fallback computes for a matched timestamp text:
colon forms are converted, any parse failure (or any other shape) leaves
the initial `0` thanks to the bare `except: pass`. -/
def matchSecondsOf (tsStr : Str) : Int :=
  match splitOnChar ':' tsStr with
  | [a, b] =>
      (match pyInt a, pyInt b with
       | .ok av, .ok bv => av * 60 + bv
       | _, _ => 0)
  | [a, b, c] =>
      (match pyInt a, pyInt b, pyInt c with
       | .ok av, .ok bv, .ok cv => av * 3600 + bv * 60 + cv
       | _, _, _ => 0)
  | _ => 0

/-- The regex fallback loop of `generate_html` (screenshot markers only):
replace the first same-kind occurrence whose embedded timestamp is within
5 seconds of the marker's, comparing against a non-integer marker
timestamp raises TypeError as `abs(int - str)` would. -/
def ssFallbackLoop (tsVal : PyVal) (element content : Str) :
    List (Str × Caps) → Except PyErr Str
  | [] => .ok content
  | (whole, k) :: rest =>
      match tsVal with
      | .int ts =>
          if (matchSecondsOf ((capGet k 1).getD []) - ts).natAbs < 5 then
            .ok (pyReplace content whole element)
          else ssFallbackLoop tsVal element content rest
      | .str _ => .error .typeError

/-- One iteration of the main marker loop of `generate_html`. -/
def genMarkerStep (g : HTMLGen) (content : Str) (m : MediaMarker) : Except PyErr Str := do
  let elem? ← (match m.type with
    | .CLIP => do
        let p? ← findMediaFileByTimestamp g m.timestamp .CLIP
        pure (p?.map (fun p => createVideoElement m p))
    | .SCREENSHOT => do
        let p? ← findMediaFileByTimestamp g m.timestamp .SCREENSHOT
        pure (p?.map (fun p => createImageElement m p)))
  match elem? with
  | some element =>
      if m.original_text ≠ [] then
        if pyInStr m.original_text content then
          pure (pyReplace content m.original_text element)
        else if m.type = .SCREENSHOT then
          ssFallbackLoop m.timestamp element content (reFind ssFallbackPat content)
        else pure content
      else pure content
  | none => pure content

/-- The loop over unprocessed `[SCREENSHOT ...]` occurrences: each gets
the i-th remaining screenshot file (sorted by name), as long as a
timestamp attribute is found and files remain. -/
def leftoverLoop (g : HTMLGen) (screenshotFiles : List Str) :
    List (Nat × Str) → Str → Str
  | [], content => content
  | (i, markerText) :: rest, content =>
      match reSearch tsSearchPat markerText with
      | some (_, k) =>
          if i < screenshotFiles.length then
            let timestamp := (capGet k 1).getD []
            let align :=
              match reSearch alignSearchPat markerText with
              | some (_, ka) =>
                  (match capGet ka 1 with
                   | some a => if a ≠ [] then pyStrip (pyStripSet ['"'] a) else "center".data
                   | none => "center".data)
              | none => "center".data
            let imagePath := pyRelpath (screenshotFiles.getD i []) (pyDirname g.mediaFolder)
            let temp : MediaMarker :=
              { type := .SCREENSHOT, timestamp := .int 0, duration := none,
                align := align, caption := ("Screenshot at ".data) ++ timestamp,
                original_text := [] }
            leftoverLoop g screenshotFiles rest
              (pyReplace content markerText (createImageElement temp imagePath))
          else leftoverLoop g screenshotFiles rest content
      | none => leftoverLoop g screenshotFiles rest content

/-- The third-tier block of `generate_html`: find remaining screenshot
bracket texts, sort the screenshot file pool by name, and substitute
positionally. -/
def leftoverStep (g : HTMLGen) (content : Str) : Str :=
  let remaining := (reFind ssLeftoverPat content).map (·.1)
  if remaining ≠ [] then
    let screenshotFiles :=
      sortLex ((g.allMediaFiles.filter (fun f => f.1 = .SCREENSHOT)).map (·.2))
    leftoverLoop g screenshotFiles remaining.enum content
  else content

/-- The MULTILINE pattern for one ATX header level,
`r'^<hashes>\s+(.+)$'`. -/
def hdrPat (hashes : Str) : RE :=
  seqList [.bol, .lit hashes, .many isPyWs true, .grp 1 (.many (· ≠ '\n') true), .eol]

/-- Embedding of `HTMLGenerator._convert_markdown_headers`: three
sequential MULTILINE substitutions, for `###`, `##`, then `#`. -/
def convertMarkdownHeaders (t : Str) : Str :=
  let t1 := reSub (hdrPat ("###".data)) [.litT ("<h3>".data), .grpT 1, .litT ("</h3>".data)] t
  let t2 := reSub (hdrPat ("##".data)) [.litT ("<h2>".data), .grpT 1, .litT ("</h2>".data)] t1
  reSub (hdrPat ("#".data)) [.litT ("<h1>".data), .grpT 1, .litT ("</h1>".data)] t2

/-- Model of `re.match(r'^\s+(.+)$', l)` content on a single line (the
source applies it to stripped, newline-free lines): after at least one
whitespace character, the greedy dot-plus takes the rest; when only
whitespace follows, backtracking leaves the final whitespace character as
the content. -/
def matchWsRest (l : Str) : Option Str :=
  let w := (l.takeWhile isPyWs).length
  if w = 0 then none
  else if l.drop w ≠ [] then some (l.drop w)
  else if w ≥ 2 then some (l.drop (w - 1))
  else none

/-- Model of `re.match(r'^\d+\.', s)`: a leading digit run followed by a
dot. -/
def startsNumDot (s : Str) : Bool :=
  let run := s.takeWhile isDigitC
  run ≠ [] ∧ (s.drop run.length).head? = some '.'

/-- Model of `re.match(r'^#{1,6}\s+(.+)$', s)` as a Boolean: one to six
leading hashes then whitespace and content. -/
def isHeaderLine (s : Str) : Bool :=
  let h := (s.takeWhile (· = '#')).length
  1 ≤ h ∧ h ≤ 6 ∧ (matchWsRest (s.drop h)).isSome

/-- Model of `re.match(r'^(\d+)\.\s+(.+)$', s)`: the number group and the
content group. -/
def matchNumbered (s : Str) : Option (Str × Str) :=
  let run := s.takeWhile isDigitC
  if run = [] then none
  else
    match s.drop run.length with
    | '.' :: rest => (matchWsRest rest).map (fun content => (run, content))
    | _ => none

/-- Model of `re.match(r'^-\s+(.+)$', s)`. -/
def matchDash (s : Str) : Option Str :=
  match s with
  | '-' :: rest => matchWsRest rest
  | _ => none

/-- The mutable flags of `_process_lists`. -/
structure PLState where
  inList : Bool := false
  inNumbered : Bool := false
  inFigure : Bool := false
  sectionCounter : Nat := 0

/-- The repeated `if in_numbered_list: append '</ol>' elif in_list:
append '</ul>'` block; note closing an ordered list leaves `in_list`
untouched, exactly as in the source. -/
def closeOpenList (st : PLState) : List Str × PLState :=
  if st.inNumbered then (["</ol>".data], { st with inNumbered := false })
  else if st.inList then (["</ul>".data], { st with inList := false })
  else ([], st)

/-- The main loop of `HTMLGenerator._process_lists`, one source line per
step.  `prevRaw` is the previous raw line (so `i > 0` iff it is present)
and the head of the remaining list is `lines[i + 1]`. -/
def processListsLoop (prevRaw : Option Str) : List Str → PLState → List Str
  | [], st => (closeOpenList st).1
  | line :: restLines, st =>
      let stripped := pyStrip line
      let (outA, stA) :=
        if pyInStr ("<figure".data) stripped then
          closeOpenList { st with inFigure := true }
        else ([], st)
      let stB :=
        if pyInStr ("</figure>".data) stripped then
          { stA with inFigure := false, sectionCounter := stA.sectionCounter + 1 }
        else stA
      if isHeaderLine stripped then
        let (clH, stH) := closeOpenList stB
        outA ++ clH ++ [line] ++
          processListsLoop (some line) restLines
            { stH with sectionCounter := stH.sectionCounter + 1 }
      else
        let (outC, stC) :=
          if prevRaw.isSome ∧ stripped ≠ [] ∧ startsNumDot stripped then
            let prevLine := pyStrip (prevRaw.getD [])
            let newSection := (prevLine = []) ∨
              (¬ (pyStartsWith ['-'] prevLine ∨ startsNumDot prevLine)) ∨
              (stB.inFigure ∨ stB.sectionCounter > 0)
            let (cl, st') :=
              if newSection ∧ stB.inList then
                (if stB.inNumbered then (["</ol>".data], { stB with inNumbered := false })
                 else (["</ul>".data], { stB with inList := false }))
              else ([], stB)
            (cl, if newSection then { st' with sectionCounter := st'.sectionCounter + 1 } else st')
          else ([], stB)
        match matchNumbered stripped with
        | some (num, content) =>
            let (openOl, stD) :=
              if ¬ stC.inNumbered then
                (["<ol class=\"preserve-numbers\">".data],
                 { stC with inNumbered := true, inList := true })
              else ([], stC)
            outA ++ outC ++ openOl ++
              [("<li value=\"".data) ++ num ++ ("\">".data) ++ content ++ ("</li>".data)] ++
              processListsLoop (some line) restLines stD
        | none =>
          match matchDash stripped with
          | some content =>
              let (clOl, stE) :=
                if stC.inNumbered then (["</ol>".data], { stC with inNumbered := false })
                else ([], stC)
              let (openUl, stF) :=
                if ¬ stE.inList ∨ stE.inNumbered then
                  (["<ul>".data], { stE with inList := true })
                else ([], stE)
              outA ++ outC ++ clOl ++ openUl ++
                [("<li>".data) ++ content ++ ("</li>".data)] ++
                processListsLoop (some line) restLines stF
          | none =>
              let (outG, stG) :=
                if stripped = [] ∧ prevRaw.isSome ∧ restLines ≠ [] then
                  let nextLine := pyStrip (restLines.headD [])
                  let prevLine := pyStrip (prevRaw.getD [])
                  if prevLine = [] ∧ startsNumDot nextLine then
                    let (cl, st') := closeOpenList stC
                    (cl, { st' with sectionCounter := st'.sectionCounter + 1 })
                  else ([], stC)
                else ([], stC)
              let (outH, stH) :=
                if stripped ≠ [] ∧ ¬ pyStartsWith ['-'] stripped ∧ ¬ startsNumDot stripped then
                  closeOpenList stG
                else ([], stG)
              outA ++ outC ++ outG ++ outH ++ [line] ++
                processListsLoop (some line) restLines stH

/-- Embedding of `HTMLGenerator._process_lists`. -/
def processLists (text : Str) : Str :=
  joinSep ['\n'] (processListsLoop none (splitOnChar '\n' text) {})

/-- The block-level substrings whose presence is what
`re.search(r'<(h[1-6]|ul|ol|li|figure)', p)` detects. -/
def blockTags : List Str :=
  ["<h1", "<h2", "<h3", "<h4", "<h5", "<h6", "<ul", "<ol", "<li", "<figure"].map String.data

/-- Test a paragraph or line for an existing block-level element. -/
def containsBlockTag (p : Str) : Bool :=
  blockTags.any (fun t => pyInStr t p)

/-- The paragraph stage of `generate_html`: split on blank lines, keep
paragraphs that already carry block HTML, wrap the plain lines of the
rest in `<p>` tags. -/
def paragraphWrap (content : Str) : Str :=
  let paragraphs := pySplitOn ("\n\n".data) content
  let htmlParagraphs := paragraphs.filterMap (fun p =>
    if pyStrip p ≠ [] then
      some (if containsBlockTag p then pyStrip p
        else joinSep ['\n'] ((splitOnChar '\n' (pyStrip p)).map (fun line =>
          if containsBlockTag line then line
          else ("<p>".data) ++ line ++ ("</p>".data))))
    else none)
  joinSep ("\n\n".data) htmlParagraphs

/-- Embedding of `HTMLGenerator.generate_html`: marker replacement with
the screenshot regex fallback, positional assignment of leftover
screenshot brackets, markdown header conversion, list grouping, and
paragraph wrapping. -/
def generateHtml (g : HTMLGen) (blogText : Str) (markers : List MediaMarker) :
    Except PyErr Str := do
  let content ← markers.foldlM (genMarkerStep g) blogText
  let content := leftoverStep g content
  let content := convertMarkdownHeaders content
  let content := processLists content
  pure (paragraphWrap content)

/-- Counting occurrences of a non-empty substring (start positions). -/
def countSub (needle : Str) : Str → Nat
  | [] => 0
  | hay@(_ :: t) =>
      (if needle ≠ [] ∧ needle.isPrefixOf hay then 1 else 0) + countSub needle t

/-- Two screenshot markers with the identical timestamp 90 s (1:30). -/
def c2Markers : List MediaMarker :=
  [{ type := .SCREENSHOT, timestamp := .int 90, duration := none,
     align := "center".data, caption := "Cap A".data,
     original_text := "[SCREENSHOT timestamp=\"1:30\"]Cap A".data },
   { type := .SCREENSHOT, timestamp := .int 90, duration := none,
     align := "center".data, caption := "Cap B".data,
     original_text := "[SCREENSHOT timestamp=\"1:30\"]Cap B".data }]

/-- The three screenshot markers of the C1 scenario (10 s, 20 s, 30 s). -/
def c1Markers : List MediaMarker :=
  [{ type := .SCREENSHOT, timestamp := .int 10, duration := none,
     align := "center".data, caption := "a".data,
     original_text := "[SCREENSHOT timestamp=\"10\"]a".data },
   { type := .SCREENSHOT, timestamp := .int 20, duration := none,
     align := "center".data, caption := "b".data,
     original_text := "[SCREENSHOT timestamp=\"20\"]b".data },
   { type := .SCREENSHOT, timestamp := .int 30, duration := none,
     align := "center".data, caption := "c".data,
     original_text := "[SCREENSHOT timestamp=\"30\"]c".data }]

/-- The cv2 outcomes of the C1 scenario: the first frame is written, the
grab of the second marker raises. -/
def c1Outcomes : Nat → ShotOutcome :=
  fun i => if i = 1 then .raised else .written

/-- The rendering result of the C7 scenario. -/
def c7Out : Str :=
  ("<ol class=\"preserve-numbers\">\n<li value=\"1\">A</li>\n<li value=\"2\">B</li>\n\n" ++
   "</ol>\n<ol class=\"preserve-numbers\">\n<li value=\"1\">C</li>\n</ol>").data

/-- Generator state for the C3 drift scenarios: one extracted screenshot
at 0:01:30 in the media folder. -/
def c3GenSS : HTMLGen :=
  ⟨"out/media".data, [(.SCREENSHOT, "out/media/vid_screenshot_001_at_0-01-30.jpg".data)]⟩

/-- A screenshot marker parsed at 90 s whose literal source span uses the
timestamp `1:30`; the document text was altered to `1:31` afterwards. -/
def c3MarkerSS : MediaMarker :=
  { type := .SCREENSHOT, timestamp := .int 90, duration := none,
    align := "center".data, caption := "Cap".data,
    original_text := "[SCREENSHOT timestamp=\"1:30\" align=\"center\"]Cap".data }

/-- The drifted document text of the C3 screenshot scenario. -/
def c3TextSS : Str :=
  "Hello [SCREENSHOT timestamp=\"1:31\" align=\"center\"]Cap world".data

/-- The rendered output of the C3 screenshot scenario. -/
def c3OutSS : Str :=
  ("Hello \n        <figure class=\"align-center width-70\">\n            " ++
   "<img src=\"media/vid_screenshot_001_at_0-01-30.jpg\" alt=\"Cap\">\n            " ++
   "<figcaption>Cap</figcaption>\n        </figure>\n        Cap world").data

/-- Generator state for the C3 clip scenario: one extracted clip from
0:01:30 with duration 15 s. -/
def c3GenCL : HTMLGen :=
  ⟨"out/media".data, [(.CLIP, "out/media/vid_clip_from_0-01-30_duration_0-00-15.mp4".data)]⟩

/-- A clip marker parsed at 90 s whose literal source span no longer
occurs in the drifted text below, while a same-kind extracted file within
the 5-second tolerance exists. -/
def c3MarkerCL : MediaMarker :=
  { type := .CLIP, timestamp := .int 90, duration := some (.int 15),
    align := "center".data, caption := "Cap".data,
    original_text := "[CLIP timestamp=\"1:30\" duration=\"15\" align=\"center\"]Cap".data }

/-- The drifted document text of the C3 clip scenario. -/
def c3TextCL : Str :=
  "Hello [CLIP timestamp=\"1:31\" duration=\"15\" align=\"center\"]Cap world".data

/-- The rendered output of the C3 clip scenario: the raw bracket marker
survives into the published HTML. -/
def c3OutCL : Str :=
  "<p>Hello [CLIP timestamp=\"1:31\" duration=\"15\" align=\"center\"]Cap world</p>".data

/-- The zero-duration clip marker of the C10 witness. -/
def c10Marker : MediaMarker :=
  { type := .CLIP, timestamp := .int 5, duration := some (.int 0),
    align := "center".data, caption := "x".data, original_text := "y".data }

/-- Predicate: the pattern contains a mandatory literal piece `s` (not
under an optional or repeated node), so every match must consume it. -/
def hasLit (s : Str) : RE → Prop
  | .lit t => t = s
  | .cat a b => hasLit s a ∨ hasLit s b
  | .grp _ r => hasLit s r
  | _ => False

/-- The paragraph of the C6 witness. -/
def c6Paras : List Str := ["a [CLIP timestamp=\"5\" duration=\"4\"]c".data]

/-- The clip marker the parser emits for the C6 witness paragraph. -/
def c6Marker : MediaMarker :=
  { type := .CLIP, timestamp := .int 5, duration := some (.int 4),
    align := "center".data, caption := "c".data,
    original_text := "[CLIP timestamp=\"5\" duration=\"4\"]c".data }

/-- Splitting on a character that does not occur returns the whole string. -/
theorem splitOnChar_of_not_mem (c : Char) (l : Str) (h : c ∉ l) :
    splitOnChar c l = [l] := by
  induction l with
  | nil => rfl
  | cons x xs ih =>
      have hx : ¬ x = c := fun he => h (he ▸ List.mem_cons_self x xs)
      have hxs : c ∉ xs := fun hm => h (List.mem_cons_of_mem x hm)
      simp only [splitOnChar, if_neg hx, ih hxs]

/-- C4 counterexample.  The claim says `parse_time` and `parse_duration`
fail with an error on every input yielding negative seconds and on every
non-numeric garbage string.  In fact `parse_time("-5")` returns `-5` and
`parse_duration("abc")` returns `0`, and `parse_duration("-5:30")`
returns `-270`; none of the three raises. -/
theorem c4_counterexample_negatives_and_garbage_accepted :
    parseTime "-5".data = Except.ok (-5) ∧
    parseDuration "abc".data = Except.ok 0 ∧
    parseDuration "-5:30".data = Except.ok (-270) := by
  exact ⟨rfl, rfl, rfl⟩

/-- C4 amended.  `parse_time` does fail with a ValueError on non-numeric
garbage (any colon-free string that `int()` rejects), but neither
normalizer rejects negative results: `parse_time("-5") = -5`, and
`parse_duration` accepts negatives (`"-5:30" = -270`) and even returns
`0` for non-numeric garbage such as `"abc"` instead of failing. -/
theorem c4_parse_time_rejects_garbage_not_negatives :
    (∀ s : Str, ':' ∉ pyStrip s → pyInt s = Except.error PyErr.valueError →
       parseTime s = Except.error PyErr.valueError) ∧
    parseTime "-5".data = Except.ok (-5) ∧
    parseDuration "-5:30".data = Except.ok (-270) ∧
    parseDuration "abc".data = Except.ok 0 := by
  refine ⟨fun s h1 h2 => ?_, rfl, rfl, rfl⟩
  simp only [parseTime, splitOnChar_of_not_mem ':' (pyStrip s) h1]
  exact h2

/-- C4 witness: the amended theorem applied at the garbage input `"abc"`. -/
theorem c4_parse_time_rejects_garbage_not_negatives_witness :
    parseTime "abc".data = Except.error PyErr.valueError :=
  c4_parse_time_rejects_garbage_not_negatives.1 "abc".data (by decide) rfl

/-- C2 counterexample.  The claim says the validator returns a warning for
a duplicate timestamp; on two screenshot markers with identical timestamps
`validate_markers` returns no warnings at all (it only checks clip
durations and string-typed timestamps). -/
theorem c2_counterexample_no_duplicate_warning :
    validateMarkers c2Markers = Except.ok [] := by
  exact rfl

/-- C2 amended.  For two same-kind markers with identical timestamps the
validator returns no warning (duplicate timestamps are not checked), and
validation neither removes nor mutates markers: both are still extracted,
the batch succeeds, and two distinct screenshot files are written. -/
theorem c2_duplicates_unwarned_and_both_extracted :
    validateMarkers c2Markers = Except.ok [] ∧
    (extractAllMedia true 10000 (fun _ => .written) (fun _ => false)
        "v.mp4".data "out".data c2Markers ⟨[]⟩).2.2 = true ∧
    (extractAllMedia true 10000 (fun _ => .written) (fun _ => false)
        "v.mp4".data "out".data c2Markers ⟨[]⟩).1.files =
      ["out/v/v_screenshot_001_at_0-01-30.jpg".data,
       "out/v/v_screenshot_002_at_0-01-30.jpg".data] := by
  exact ⟨rfl, rfl, rfl⟩

/-- C5 counterexample.  The claim says every ATX header line of level 1–6
is converted to the corresponding heading element; a level-4 line is left
completely unchanged by `_convert_markdown_headers`. -/
theorem c5_counterexample_h4_unconverted :
    convertMarkdownHeaders "#### Sub".data = "#### Sub".data ∧
    convertMarkdownHeaders "#### Sub".data ≠ "<h4>Sub</h4>".data := by
  exact ⟨rfl, by decide⟩

/-- C5 amended.  Before paragraph wrapping the renderer converts markdown
ATX headers of levels 1–3 only (`#`, `##`, `###`) into the corresponding
heading elements; level 4–6 header lines are left as literal text. -/
theorem c5_headers_levels_one_to_three_converted :
    convertMarkdownHeaders "# A\n## B\n### C\n#### D\n##### E\n###### F".data =
      "<h1>A</h1>\n<h2>B</h2>\n<h3>C</h3>\n#### D\n##### E\n###### F".data := by
  exact rfl

/-- C1: extraction of the second of three markers throws after the first
file was written; the pipeline reports failure and runs
`cleanup_failed_extractions`, yet the first screenshot file remains on
disk afterwards — the rollback misses it because the batch raise happens
before any path is tracked, and the tracked screenshot paths omit the
video-named subfolder the extractor writes into anyway.  The claim (spec
§4.4: zero files remain after a reported failure) is the documented
intent of `cleanup_failed_extractions`; the code fails to implement it. -/
theorem c1_failed_batch_leaves_partial_file :
    blogExtractMedia true 10000 c1Outcomes (fun _ => false)
        "v.mp4".data "out".data c1Markers ⟨[]⟩ =
      (⟨["out/v/v_screenshot_001_at_0-00-10.jpg".data]⟩, false) := by
  exact rfl

/-- C7: rendering `1. A`, `2. B`, blank line, `1. C` produces two separate
ordered-list elements, and each item keeps the author's original number
(1 and 2 in the first list, 1 in the second) via `value` attributes. -/
theorem c7_numbered_list_restart_preserves_values :
    generateHtml ⟨"out/media".data, []⟩ "1. A\n2. B\n\n1. C".data [] = Except.ok c7Out ∧
    countSub "<ol class=\"preserve-numbers\">".data c7Out = 2 ∧
    countSub "</ol>".data c7Out = 2 ∧
    pyInStr "<li value=\"1\">A</li>".data c7Out = true ∧
    pyInStr "<li value=\"2\">B</li>".data c7Out = true ∧
    pyInStr "<li value=\"1\">C</li>".data c7Out = true := by
  exact ⟨rfl, rfl, rfl, rfl, rfl, rfl⟩

/-- C8: rendering is deterministic.  `generate_html` reads only the
generator's media folder and scanned media-file index besides its text
and marker arguments, so two generators agreeing on those fields produce
byte-identical output for every fixed input triple.  (In the shallow
embedding the function has no other state to read: there is no random,
time-, or iteration-order-dependent source in the Python code.) -/
theorem c8_render_deterministic (g1 g2 : HTMLGen) (text : Str)
    (markers : List MediaMarker)
    (hf : g1.mediaFolder = g2.mediaFolder)
    (hm : g1.allMediaFiles = g2.allMediaFiles) :
    generateHtml g1 text markers = generateHtml g2 text markers := by
  cases g1
  cases g2
  simp only at hf hm
  subst hf
  subst hm
  rfl

/-- C8 witness: two invocations on the same concrete input agree. -/
theorem c8_render_deterministic_witness :
    generateHtml ⟨"out/media".data, []⟩ "# T\nbody".data [] =
      generateHtml ⟨"out/media".data, []⟩ "# T\nbody".data [] :=
  c8_render_deterministic ⟨"out/media".data, []⟩ ⟨"out/media".data, []⟩
    "# T\nbody".data [] rfl rfl

/-- C3 counterexample.  The claim says markers of either kind are
recovered by the relaxed timestamp-proximity re-scan.  For a Clip marker
whose span drifted by one second — with a same-kind extracted file well
within the 5-second tolerance — the renderer leaves the raw bracket
syntax in the output: the fallback re-scan is only implemented for
Screenshot markers (`if marker.type == 'SCREENSHOT':`), and the leftover
tier only matches `[SCREENSHOT...]` brackets. -/
theorem c3_counterexample_clip_drift_left_raw :
    generateHtml c3GenCL c3TextCL [c3MarkerCL] = Except.ok c3OutCL ∧
    pyInStr "[CLIP".data c3OutCL = true := by
  exact ⟨rfl, rfl⟩

/-- C3 amended.  The relaxed ≈5-second regex re-scan applies to
Screenshot markers only: a screenshot marker whose literal span was
altered between parse and render time is still resolved to its media
file (no raw `[SCREENSHOT` syntax remains), while a Clip marker in the
same situation is left as raw bracket text. -/
theorem c3_screenshot_drift_resolved_clip_not :
    generateHtml c3GenSS c3TextSS [c3MarkerSS] = Except.ok c3OutSS ∧
    pyInStr "[SCREENSHOT".data c3OutSS = false ∧
    pyInStr "<figure".data c3OutSS = true ∧
    pyInStr "media/vid_screenshot_001_at_0-01-30.jpg".data c3OutSS = true ∧
    generateHtml c3GenCL c3TextCL [c3MarkerCL] = Except.ok c3OutCL ∧
    pyInStr "[CLIP".data c3OutCL = true := by
  exact ⟨rfl, rfl, rfl, rfl, rfl, rfl⟩

/-- A non-positive duration makes `extract_video_clip` raise ValueError
with the file system untouched: either the start-time validation or the
explicit `duration <= 0` check fires before ffmpeg is invoked. -/
theorem extractVideoClip_nonpos (ff : Bool) (videoPath outputDir : Str)
    (startTime d : Int) (fs : FS) (hd : d ≤ 0) :
    extractVideoClip true ff videoPath outputDir startTime d fs =
      (fs, Except.error PyErr.valueError) := by
  unfold extractVideoClip validateTimestamps
  by_cases hst : (0:Int) ≤ startTime
  · simp [hst, hd]
  · simp [hst]

/-- If the clip loop's list contains a marker with integer timestamp and
non-positive integer duration, the loop ends in a raise (whatever the
ffmpeg outcomes of the other clips are). -/
theorem mediaExtractClips_member_nonpos
    (ff : Nat → Bool) (videoPath outputDir : Str) (m : MediaMarker) (t d : Int)
    (ht : m.timestamp = .int t) (hdur : m.duration = some (.int d)) (hd : d ≤ 0) :
    ∀ (l : List MediaMarker), m ∈ l → ∀ (i : Nat) (fs : FS) (st : ExtractorState),
      ∃ fs' st' e, mediaExtractClips true ff videoPath outputDir l i fs st =
        (fs', st', Except.error e) := by
  intro l
  induction l with
  | nil => intro hm; exact absurd hm (List.not_mem_nil m)
  | cons a l' ih =>
      intro hm i fs st
      rcases List.mem_cons.mp hm with rfl | hm'
      · simp only [mediaExtractClips, ht, hdur,
          extractVideoClip_nonpos (ff i) videoPath outputDir t d fs hd]
        exact ⟨fs, st, .valueError, rfl⟩
      · match hts : a.timestamp with
        | .str s =>
            simp only [mediaExtractClips, hts]
            exact ih hm' (i + 1) fs st
        | .int t' =>
            match hdu : a.duration with
            | none =>
                simp only [mediaExtractClips, hts, hdu]
                exact ih hm' (i + 1) fs st
            | some (.str s') =>
                simp only [mediaExtractClips, hts, hdu]
                exact ih hm' (i + 1) fs st
            | some (.int d') =>
                rcases hvc : extractVideoClip true (ff i) videoPath outputDir t' d' fs
                  with ⟨fs2, r2⟩
                cases r2 with
                | error e =>
                    simp only [mediaExtractClips, hts, hdu, hvc]
                    exact ⟨fs2, st, e, rfl⟩
                | ok p =>
                    simp only [mediaExtractClips, hts, hdu, hvc]
                    exact ih hm' (i + 1) fs2 _

/-- A batch whose marker list contains a clip with non-positive duration
reports failure, regardless of every other extraction outcome. -/
theorem extractAllMedia_nonpos_clip
    (videoDur : Int) (out : Nat → ShotOutcome) (ff : Nat → Bool)
    (videoPath outputDir : Str) (markers : List MediaMarker) (fs : FS)
    (m : MediaMarker) (t d : Int)
    (hm : m ∈ markers) (htype : m.type = .CLIP)
    (ht : m.timestamp = .int t) (hdur : m.duration = some (.int d)) (hd : d ≤ 0) :
    (extractAllMedia true videoDur out ff videoPath outputDir markers fs).2.2 = false := by
  have hne : markers ≠ [] := List.ne_nil_of_mem hm
  have hmc : m ∈ markers.filter (fun x => x.type = .CLIP) :=
    List.mem_filter.mpr ⟨hm, by simp [htype]⟩
  have hcne : markers.filter (fun x => x.type = .CLIP) ≠ [] := List.ne_nil_of_mem hmc
  unfold extractAllMedia
  simp only [not_true, if_false, if_neg hne, if_pos hcne, ite_false, eq_self_iff_true]
  split
  · rfl
  · next fs1 st1 u heq =>
      obtain ⟨fs', st', e, hres⟩ :=
        mediaExtractClips_member_nonpos ff videoPath outputDir m t d ht hdur hd
          (markers.filter (fun x => x.type = .CLIP)) hmc 0 fs1 st1
      rw [hres]

/-- C10: for every clip marker with non-positive duration,
`extract_video_clip` raises ValueError before producing any output file
(the file system is returned unchanged), and consequently
`extract_all_media` returns False for the whole batch, whatever the other
extraction outcomes — the advisory validator warning never blocks the
attempt, the extractor itself rejects the duration. -/
theorem c10_nonpositive_duration_rejects_batch :
    (∀ (ff : Bool) (videoPath outputDir : Str) (startTime d : Int) (fs : FS), d ≤ 0 →
       extractVideoClip true ff videoPath outputDir startTime d fs =
         (fs, Except.error PyErr.valueError)) ∧
    (∀ (videoDur : Int) (out : Nat → ShotOutcome) (ff : Nat → Bool)
       (videoPath outputDir : Str) (markers : List MediaMarker) (fs : FS)
       (m : MediaMarker) (t d : Int),
       m ∈ markers → m.type = .CLIP → m.timestamp = .int t →
       m.duration = some (.int d) → d ≤ 0 →
       (extractAllMedia true videoDur out ff videoPath outputDir markers fs).2.2 = false) :=
  ⟨fun ff vp od s d fs hd => extractVideoClip_nonpos ff vp od s d fs hd,
   fun vd out ff vp od ms fs m t d hm htype ht hdur hd =>
     extractAllMedia_nonpos_clip vd out ff vp od ms fs m t d hm htype ht hdur hd⟩

/-- C10 witness: the theorem applied to a concrete zero-duration clip. -/
theorem c10_nonpositive_duration_rejects_batch_witness :
    extractVideoClip true false "v.mp4".data "out".data 5 0 ⟨[]⟩ =
      (⟨[]⟩, Except.error PyErr.valueError) ∧
    (extractAllMedia true 100 (fun _ => .written) (fun _ => false)
        "v.mp4".data "out".data [c10Marker] ⟨[]⟩).2.2 = false :=
  ⟨c10_nonpositive_duration_rejects_batch.1 false "v.mp4".data "out".data 5 0 ⟨[]⟩ (by decide),
   c10_nonpositive_duration_rejects_batch.2 100 (fun _ => .written) (fun _ => false)
     "v.mp4".data "out".data [c10Marker] ⟨[]⟩ c10Marker 5 0
     (by decide) rfl rfl rfl (by decide)⟩

/-- `os.path.basename` never contains a slash. -/
theorem slash_not_mem_pyBasename (p : Str) : '/' ∉ pyBasename p := by
  intro h
  have h1 : '/' ∈ p.reverse.takeWhile (· ≠ '/') := List.mem_reverse.mp h
  have h2 := List.mem_takeWhile_imp h1
  simp at h2

/-- The `splitext` root is made of characters of its input. -/
theorem mem_of_mem_splitextRoot {c : Char} {p : Str} (h : c ∈ splitextRoot p) : c ∈ p := by
  simp only [splitextRoot] at h
  split at h
  · exact h
  · split at h
    · exact h
    · exact List.mem_of_mem_take h

/-- C9: for every output directory (non-empty, no trailing slash), video
path with a non-empty stem, marker index and timestamp, the screenshot
path the coordinator tracks (directly under `output_dir`) differs from
the path the screenshot extractor actually writes (inside the
`output_dir/<video_stem>/` subfolder) — the written path is strictly
longer by the stem and one separator. -/
theorem c9_tracked_path_differs_from_written (outputDir videoPath : Str) (i : Nat) (t : Int)
    (h1 : outputDir ≠ []) (h2 : outputDir.getLast? ≠ some '/')
    (h3 : splitextRoot (pyBasename videoPath) ≠ []) :
    screenshotWrittenPath outputDir videoPath i t ≠
      screenshotTrackedPath outputDir videoPath i t := by
  intro heq
  have hnoslash : '/' ∉ splitextRoot (pyBasename videoPath) :=
    fun hc => slash_not_mem_pyBasename videoPath (mem_of_mem_splitextRoot hc)
  obtain ⟨s0, stem', hstem⟩ : ∃ a l, splitextRoot (pyBasename videoPath) = a :: l := by
    cases hc : splitextRoot (pyBasename videoPath) with
    | nil => exact absurd hc h3
    | cons a l => exact ⟨a, l, rfl⟩
  have hs0 : s0 ≠ '/' := fun he => hnoslash (by rw [hstem, he]; exact List.mem_cons_self _ _)
  have hfn : screenshotFilename (splitextRoot (pyBasename videoPath)) i t =
      s0 :: (stem' ++ ("_screenshot_".data ++ fmtInt03 (i + 1) ++ "_at_".data ++
        replaceChar ':' '-' (fmtTD t) ++ ".jpg".data)) := by
    simp [screenshotFilename, hstem, List.append_assoc]
  have hinner : pyJoin outputDir (splitextRoot (pyBasename videoPath)) =
      outputDir ++ '/' :: s0 :: stem' := by
    rw [pyJoin, hstem]
    rw [if_neg (by simp [hs0]), if_neg h1, if_neg h2]
  have hlast : (outputDir ++ '/' :: s0 :: stem').getLast? ≠ some '/' := by
    rw [List.getLast?_append_of_ne_nil _ (by simp), List.getLast?_cons_cons]
    intro hcon
    have hmem : '/' ∈ s0 :: stem' := by
      rcases List.mem_getLast?_eq_getLast hcon with ⟨hne, hgl⟩
      exact hgl ▸ List.getLast_mem hne
    exact hnoslash (hstem ▸ hmem)
  have hwr : screenshotWrittenPath outputDir videoPath i t =
      (outputDir ++ '/' :: s0 :: stem') ++ '/' ::
        screenshotFilename (splitextRoot (pyBasename videoPath)) i t := by
    rw [screenshotWrittenPath, hinner, pyJoin]
    rw [if_neg (by rw [hfn]; simp [hs0]), if_neg (by simp), if_neg hlast]
  have htr : screenshotTrackedPath outputDir videoPath i t =
      outputDir ++ '/' :: screenshotFilename (splitextRoot (pyBasename videoPath)) i t := by
    rw [screenshotTrackedPath, pyJoin]
    rw [if_neg (by rw [hfn]; simp [hs0]), if_neg h1, if_neg h2]
  rw [hwr, htr] at heq
  have hlen := congrArg List.length heq
  simp [List.length_append] at hlen
  omega

/-- C9 witness: the concrete mismatch for `out`, `v.mp4`, first marker at
10 seconds (`out/v/v_screenshot_001_at_0-00-10.jpg` is written while
`out/v_screenshot_001_at_0-00-10.jpg` is tracked). -/
theorem c9_tracked_path_differs_from_written_witness :
    screenshotWrittenPath "out".data "v.mp4".data 0 10 ≠
      screenshotTrackedPath "out".data "v.mp4".data 0 10 :=
  c9_tracked_path_differs_from_written "out".data "v.mp4".data 0 10
    (by decide) (by decide) (by decide)

theorem reM_hasLit_infix (s : Str) : ∀ (r : RE), hasLit s r →
    ∀ (prev : Option Char) (inp : Str) (x : Str × Str × Caps), x ∈ reM r prev inp →
      ∃ u v, x.1 = u ++ s ++ v := by
  intro r
  induction r with
  | eps => intro h; exact h.elim
  | lit t =>
      intro h prev inp x hx
      simp only [reM] at hx
      have ht : t = s := h
      split at hx
      · rcases List.mem_singleton.mp hx with rfl
        exact ⟨[], [], by simp [ht]⟩
      · exact absurd hx (List.not_mem_nil x)
  | many p b => intro h; exact h.elim
  | optc p => intro h; exact h.elim
  | grp n r ih =>
      intro h prev inp x hx
      simp only [reM] at hx
      rw [List.mem_map] at hx
      obtain ⟨y, hy, rfl⟩ := hx
      exact ih h prev inp y hy
  | cat a b iha ihb =>
      intro h prev inp x hx
      simp only [reM] at hx
      rw [List.mem_flatMap] at hx
      obtain ⟨y, hy, hx⟩ := hx
      rw [List.mem_map] at hx
      obtain ⟨z, hz, rfl⟩ := hx
      cases h with
      | inl ha =>
          obtain ⟨u, v, huv⟩ := iha ha prev inp y hy
          exact ⟨u, v ++ z.1, by simp [huv]⟩
      | inr hb =>
          obtain ⟨u, v, huv⟩ := ihb hb (lastOr prev y.1) y.2.1 z hz
          exact ⟨y.1 ++ u, v, by simp [huv]⟩
  | opts r ih => intro h; exact h.elim
  | bol => intro h; exact h.elim
  | eol => intro h; exact h.elim

theorem mem_of_head?_eq {α : Type} {l : List α} {a : α} (h : l.head? = some a) : a ∈ l := by
  cases l with
  | nil => simp at h
  | cons b t =>
      simp only [List.head?_cons, Option.some.injEq] at h
      rw [← h]
      exact List.mem_cons_self b t

theorem reFindAux_mem (r : RE) : ∀ (fuel : Nat) (prev : Option Char) (inp : Str)
    (c : Str) (k : Caps), (c, k) ∈ reFindAux r fuel prev inp →
    ∃ prev' inp' rest, (c, rest, k) ∈ reM r prev' inp' := by
  intro fuel
  induction fuel with
  | zero => intro prev inp c k h; exact absurd h (List.not_mem_nil _)
  | succ n ih =>
      intro prev inp c k h
      simp only [reFindAux] at h
      split at h
      · next c0 rest0 k0 hh =>
          split at h
          · rcases List.mem_cons.mp h with heq | htail
            · have hc : c = c0 := congrArg Prod.fst heq
              have hk : k = k0 := congrArg Prod.snd heq
              subst hc hk
              exact ⟨prev, inp, rest0, mem_of_head?_eq hh⟩
            · split at htail
              · exact absurd htail (List.not_mem_nil _)
              · next ch t => exact ih (some ch) t c k htail
          · rcases List.mem_cons.mp h with heq | htail
            · have hc : c = c0 := congrArg Prod.fst heq
              have hk : k = k0 := congrArg Prod.snd heq
              subst hc hk
              exact ⟨prev, inp, rest0, mem_of_head?_eq hh⟩
            · exact ih (lastOr prev c0) rest0 c k htail
      · next hh =>
          split at h
          · exact absurd h (List.not_mem_nil _)
          · next ch t => exact ih (some ch) t c k h

theorem pyInStr_of_isPrefixOf {s hay : Str} (h : s.isPrefixOf hay = true) :
    pyInStr s hay = true := by
  cases hay with
  | nil => simpa [pyInStr] using h
  | cons a t => simp [pyInStr, h]

theorem pyInStr_parts (s u v : Str) : pyInStr s (u ++ s ++ v) = true := by
  induction u with
  | nil =>
      refine pyInStr_of_isPrefixOf ?_
      rw [List.isPrefixOf_iff_prefix]
      exact ⟨v, by simp⟩
  | cons a u' ih =>
      show (s.isPrefixOf (a :: (u' ++ s ++ v)) || pyInStr s (u' ++ s ++ v)) = true
      rw [ih, Bool.or_true]

theorem mkClipAlign_spec {w : Str} {k : Caps} {m : MediaMarker}
    (h : mkClipAlign w k = some m) : m.type = .CLIP ∧ m.original_text = w := by
  unfold mkClipAlign at h
  split at h
  · cases h; exact ⟨rfl, rfl⟩
  · cases h

theorem mkClipNoAlign_spec {w : Str} {k : Caps} {m : MediaMarker}
    (h : mkClipNoAlign w k = some m) : m.type = .CLIP ∧ m.original_text = w := by
  unfold mkClipNoAlign at h
  split at h
  · cases h; exact ⟨rfl, rfl⟩
  · cases h

theorem mkSsAlign_spec {w : Str} {k : Caps} {m : MediaMarker}
    (h : mkSsAlign w k = some m) : m.type = .SCREENSHOT := by
  unfold mkSsAlign at h
  split at h
  · cases h; rfl
  · cases h

theorem mkSsNoAlign_spec {w : Str} {k : Caps} {m : MediaMarker}
    (h : mkSsNoAlign w k = some m) : m.type = .SCREENSHOT := by
  unfold mkSsNoAlign at h
  split at h
  · cases h; rfl
  · cases h

/-- C6: the inline bracket CLIP grammar requires an explicit duration.
Every CLIP marker the parser ever emits comes from a match that consumed
the literal `duration="` (so no marker is emitted, with a 120 s default
or otherwise, for a duration-less inline clip marker), the parser returns
the document text untouched (markers are never removed from it), and on a
concrete duration-less clip document it emits no marker at all while
preserving the text. -/
theorem c6_inline_clip_requires_duration :
    (∀ (paras : List Str) (m : MediaMarker),
       m ∈ (extractMarkers paras).1 → m.type = .CLIP →
       pyInStr "duration=\"".data m.original_text = true) ∧
    (∀ paras : List Str, (extractMarkers paras).2 = joinSep ['\n'] (paras.map pyStrip)) ∧
    extractMarkers ["Intro [CLIP timestamp=\"1:30\"]Cap here".data] =
      ([], "Intro [CLIP timestamp=\"1:30\"]Cap here".data) := by
  refine ⟨?_, fun paras => rfl, rfl⟩
  intro paras m hm htype
  simp only [extractMarkers] at hm
  rw [List.mem_flatMap] at hm
  obtain ⟨p, hp, hm⟩ := hm
  by_cases hpe : pyStrip p = []
  · rw [if_pos hpe] at hm
    exact absurd hm (List.not_mem_nil m)
  · rw [if_neg hpe] at hm
    rcases List.mem_append.mp hm with hclip | hss
    · have hdur : hasLit "duration=\"".data clipPatternAlign ∧
          hasLit "duration=\"".data clipPatternNoAlign := by
        constructor
        · simp [clipPatternAlign, seqList, hasLit]
        · simp [clipPatternNoAlign, seqList, hasLit]
      rcases List.mem_append.mp hclip with h1 | h2
      · rw [List.mem_filterMap] at h1
        obtain ⟨x, hx, hmk⟩ := h1
        obtain ⟨-, htext⟩ := mkClipAlign_spec hmk
        obtain ⟨prev', inp', rest, hreM⟩ := reFindAux_mem clipPatternAlign _ none _ x.1 x.2 hx
        obtain ⟨u, v, huv⟩ :=
          reM_hasLit_infix "duration=\"".data clipPatternAlign hdur.1 prev' inp'
            (x.1, rest, x.2) hreM
        rw [htext, huv]
        exact pyInStr_parts _ u v
      · rw [List.mem_filterMap] at h2
        obtain ⟨x, hx, hmk⟩ := h2
        obtain ⟨-, htext⟩ := mkClipNoAlign_spec hmk
        obtain ⟨prev', inp', rest, hreM⟩ := reFindAux_mem clipPatternNoAlign _ none _ x.1 x.2 hx
        obtain ⟨u, v, huv⟩ :=
          reM_hasLit_infix "duration=\"".data clipPatternNoAlign hdur.2 prev' inp'
            (x.1, rest, x.2) hreM
        rw [htext, huv]
        exact pyInStr_parts _ u v
    · rcases List.mem_append.mp hss with h1 | h2
      · rw [List.mem_filterMap] at h1
        obtain ⟨x, hx, hmk⟩ := h1
        rw [mkSsAlign_spec hmk] at htype
        cases htype
      · rw [List.mem_filterMap] at h2
        obtain ⟨x, hx, hmk⟩ := h2
        rw [mkSsNoAlign_spec hmk] at htype
        cases htype

/-- C6 witness: the theorem applied to a concrete parsed clip marker. -/
theorem c6_inline_clip_requires_duration_witness :
    pyInStr "duration=\"".data c6Marker.original_text = true :=
  c6_inline_clip_requires_duration.1 c6Paras c6Marker (by decide) (by decide)

end BlogGen
